import Mathlib

/-!
Verification of the request-lifecycle logging / error-propagation pipeline of the
dot-env repository (SvelteKit + Axiom logging + items CRUD API).

The definitions below are a shallow embedding of the TypeScript source:
  * `src/lib/server/axiom/middleware.ts` — `shouldLogRequest`, `logRequest`, `logResponse`
  * `src/lib/server/axiom/errors.ts`     — `ErrorType`, `AppError`, `logAppError`
  * `src/lib/server/axiom/axiom.ts`      — `getDatasetName`, `isAxiomConfigured`
  * `src/lib/server/axiom/logger.ts`     — `createLogger`
  * `hooks.server.ts`                    — `handle`, `handleError`
  * `src/routes/api/items/+server.ts`    — `POST`, `DELETE`

Nondeterministic runtime inputs (`Date.now()`, `generateRequestId()`, the environment,
the database contents, the downstream handler's outcome) are passed as explicit
parameters.  Log emission is modelled as the list of structured records produced,
in emission order.
-/

namespace DotEnv

/-- JavaScript string-prefix test `pathname.startsWith(path)` modelled on the
character list underlying the string. -/
def strStartsWith (s pre : String) : Bool :=
  pre.data.isPrefixOf s.data

/-- The fixed denylist of path prefixes from `shouldLogRequest` in `middleware.ts`
(lines 144–155). -/
def skipPaths : List String :=
  ["/favicon.ico", "/robots.txt", "/_app/", "/health", "/ping"]

/-- `shouldLogRequest(pathname)`: true unless the path starts with one of the
denylisted prefixes (`middleware.ts` lines 144–155). -/
def shouldLogRequest (pathname : String) : Bool :=
  !(skipPaths.any fun path => strStartsWith pathname path)

/-- The error taxonomy `ErrorType` of `errors.ts` (lines 6–17). -/
inductive ErrorType where
  | validation
  | database
  | authentication
  | authorization
  | notFound
  | rateLimit
  | externalApi
  | internal
  | network
  | timeout
deriving DecidableEq, Repr

/-- The string value each `ErrorType` enum member carries in the source. -/
def ErrorType.code : ErrorType → String
  | .validation => "validation"
  | .database => "database"
  | .authentication => "authentication"
  | .authorization => "authorization"
  | .notFound => "not_found"
  | .rateLimit => "rate_limit"
  | .externalApi => "external_api"
  | .internal => "internal"
  | .network => "network"
  | .timeout => "timeout"

/-- `AppError` of `errors.ts` (lines 36–64): message, category, HTTP-style status
code, contextual metadata (modelled as an association list of string pairs), and the
operational flag. -/
structure AppError where
  message : String
  type : ErrorType
  statusCode : Nat
  context : List (String × String)
  isOperational : Bool
deriving DecidableEq, Repr

/-- The `AppError` constructor (`errors.ts` lines 42–63): stores the arguments and
extends the supplied context with the `errorType` and `statusCode` fields. -/
def AppError.make (message : String) (type : ErrorType) (statusCode : Nat)
    (context : List (String × String)) (isOperational : Bool) : AppError :=
  { message := message
    type := type
    statusCode := statusCode
    isOperational := isOperational
    context := context ++ [("errorType", type.code), ("statusCode", toString statusCode)] }

/-- One structured log record, as handed to the logger.  Constructors correspond to
`log.request`, `log.response`, `log.warn`, `logAppError` / `logError`, and
`log.database` calls in the source.  Fields not needed by any verified property
(full URL, user agent, etc.) are elided uniformly. -/
inductive LogEvent where
  | requestLog (requestId : String) (method : String) (path : String)
  | responseLog (requestId : String) (status : Nat) (duration : Int)
  | warnLog (message : String)
  | errorLog (e : AppError) (additional : List (String × String))
  | plainErrorLog (message : String)
  | databaseLog (operation : String) (table : String)
deriving DecidableEq, Repr

/-- Is this record an arrival (`type: request`) record? -/
def LogEvent.isArrival : LogEvent → Bool
  | .requestLog .. => true
  | _ => false

/-- Is this record a completion (`type: response`) record? -/
def LogEvent.isCompletion : LogEvent → Bool
  | .responseLog .. => true
  | _ => false

/-- Is this record a classified-error report (a `logAppError` emission)? -/
def LogEvent.isErrorReport : LogEvent → Bool
  | .errorLog .. => true
  | _ => false

/-- The request identity carried by an arrival or completion record. -/
def LogEvent.ridOf : LogEvent → Option String
  | .requestLog rid _ _ => some rid
  | .responseLog rid _ _ => some rid
  | _ => none

/-- The status carried by a completion record. -/
def LogEvent.statusOf : LogEvent → Option Nat
  | .responseLog _ status _ => some status
  | _ => none

/-- The duration carried by a completion record. -/
def LogEvent.durationOf : LogEvent → Option Int
  | .responseLog _ _ duration => some duration
  | _ => none

/-- The inbound request event, restricted to the fields the pipeline reads. -/
structure Event where
  method : String
  url : String
  pathname : String
deriving DecidableEq, Repr

/-- The record constructed by `logRequest` in `middleware.ts` (lines 33–43): a
`type: request` record carrying the request context and the identity. -/
def logRequestRecord (ev : Event) (requestId : String) : LogEvent :=
  .requestLog requestId ev.method ev.pathname

/-- The record constructed by `logResponse` in `middleware.ts` (lines 48–65):
`duration = Date.now() - startTime` (the subtraction is NOT clamped in the source),
emitted as a `type: response` record with the status.  `now` is the explicit clock
value of the `Date.now()` call inside `logResponse`. -/
def logResponseRecord (_ev : Event) (requestId : String) (startTime now : Int)
    (status : Nat) : LogEvent :=
  .responseLog requestId status (now - startTime)

/-- A failure thrown by the downstream handler: either an already-classified
`AppError`, or a plain error carrying only its message. -/
inductive Thrown where
  | app (e : AppError)
  | plain (message : String)
deriving DecidableEq, Repr

/-- The outcome of `resolve(event)`: a normal response with a status, or a thrown
failure. -/
inductive HandlerOutcome where
  | ok (status : Nat)
  | thrown (t : Thrown)
deriving DecidableEq, Repr

/-- The classified-error report the `handle` catch block files (`hooks.server.ts`
lines 372–392): an `AppError` is reported as itself (with the request context as
additional fields); a plain failure is wrapped into a fresh internal/500 `AppError`
whose metadata preserves the original message under `originalError`. -/
def handleReport (ev : Event) (requestId : String) : Thrown → LogEvent
  | .app e =>
      .errorLog e
        [("requestId", requestId), ("method", ev.method), ("url", ev.url)]
  | .plain msg =>
      .errorLog
        (AppError.make "Unhandled server error" ErrorType.internal 500
          [("requestId", requestId), ("method", ev.method), ("url", ev.url),
           ("originalError", msg)] true)
        []

/-- The global request interceptor `handle` of `hooks.server.ts` (lines 342–396).
Returns the emitted log records in order, the outcome passed to the caller (the
response, or the re-raised failure), and the `requestId` stored in `event.locals`
(none on the skip path).  `requestId`, `startTime` and `now` are the explicit
values of `generateRequestId()` / `Date.now()`. -/
def handle (ev : Event) (requestId : String) (startTime now : Int)
    (downstream : HandlerOutcome) : List LogEvent × HandlerOutcome × Option String :=
  if !shouldLogRequest ev.pathname then
    ([], downstream, none)
  else
    let arrival := logRequestRecord ev requestId
    match downstream with
    | .ok status =>
        ([arrival, logResponseRecord ev requestId startTime now status],
         .ok status, some requestId)
    | .thrown t =>
        ([arrival, logResponseRecord ev requestId startTime now 500,
          handleReport ev requestId t],
         .thrown t, some requestId)

/-- The safe payload `handleError` returns to the boundary. -/
structure SafeErrorPayload where
  message : String
  code : String
deriving DecidableEq, Repr

/-- The process-wide unhandled-failure handler `handleError` of `hooks.server.ts`
(lines 401–430).  It reports using `event.locals.requestId` when present, else a
freshly generated id, and always returns the fixed generic payload.  The report
construction is identical to the `handle` catch block, so it is shared through
`handleReport`. -/
def handleError (ev : Event) (localsRequestId : Option String) (freshId : String)
    (t : Thrown) : LogEvent × SafeErrorPayload :=
  let requestId := localsRequestId.getD freshId
  (handleReport ev requestId t,
   { message := "Internal server error", code := "INTERNAL_ERROR" })

/-! ## Log sink fan-out and `logRequest` (best-effort logging) -/

/-- A log destination: a write that may fail with an error. -/
def Destination : Type :=
  LogEvent → Except String Unit

/-- Modelled from the spec: the fan-out of one record to every configured
destination, each destination failure caught and swallowed individually, lives in
the external logging package (`Logger` / transports of `@axiomhq/logging`), which
is not under `src/`.  Spec §4.4: "Each destination failure is caught and swallowed
individually — one destination's failure must never block another's delivery nor
propagate to the caller."  The returned flags record which deliveries succeeded. -/
def emitRecord (destinations : List Destination) (r : LogEvent) : List Bool :=
  destinations.map fun d =>
    match d r with
    | .ok _ => true
    | .error _ => false

/-- `logRequest` of `middleware.ts` (lines 33–43), with the sink write made
explicit: uses the supplied `requestId` or the freshly generated one, builds the
`type: request` record, hands it to the sink fan-out, and returns the id used.
The `Except` layer makes a thrown failure representable; `logRequest` itself never
produces one. -/
def logRequest (destinations : List Destination) (ev : Event)
    (requestId : Option String) (generatedId : String) :
    Except String (String × List Bool) :=
  let id := requestId.getD generatedId
  let record := logRequestRecord ev id
  let deliveries := emitRecord destinations record
  Except.ok (id, deliveries)

/-! ## Startup configuration (`axiom.ts`, `logger.ts`) -/

/-- The two environment variables the logging configuration reads. -/
structure AxiomEnv where
  AXIOM_TOKEN : Option String
  AXIOM_DATASET : Option String
deriving DecidableEq, Repr

/-- JavaScript truthiness of `string | undefined`: `undefined` and `""` are falsy. -/
def truthyStr : Option String → Bool
  | none => false
  | some s => !(s == "")

/-- `isAxiomConfigured` of `axiom.ts` (lines 30–32):
`!!(env.AXIOM_TOKEN && env.AXIOM_DATASET)` — true only when BOTH are truthy. -/
def isAxiomConfigured (e : AxiomEnv) : Bool :=
  truthyStr e.AXIOM_TOKEN && truthyStr e.AXIOM_DATASET

/-- `getDatasetName` of `axiom.ts` (lines 18–25): the dataset name, falling back to
`"default"` when the variable is unset (with a startup warning).  The Bool records
whether the warning was printed. -/
def getDatasetName (e : AxiomEnv) : String × Bool :=
  match e.AXIOM_DATASET with
  | none => ("default", true)
  | some s => if s == "" then ("default", true) else (s, false)

/-- A configured log transport: the console transport, or the remote (Axiom)
transport bound to a dataset name. -/
inductive Transport where
  | console
  | remote (dataset : String)
deriving DecidableEq, Repr

/-- `createLogger` of `logger.ts` (lines 56–83): always the console transport;
the remote transport is added only when `isAxiomConfigured()` holds, otherwise a
startup warning ("Axiom not configured...") is printed.  Returns the transport
list and whether that warning was printed.  The list is computed once (module-level
`logger` singleton) and never mutated afterwards. -/
def createLogger (e : AxiomEnv) : List Transport × Bool :=
  if isAxiomConfigured e then
    ([Transport.console, Transport.remote (getDatasetName e).1], false)
  else
    ([Transport.console], true)

/-! ## Items persistence model and API handlers (`+server.ts`) -/

/-- One row of the `items` table (`schema.ts`), with `price` stored as integer
cents and timestamps as abstract instants. -/
structure Item where
  id : Nat
  name : String
  description : Option String
  category : String
  price : Int
  createdAt : Nat
  updatedAt : Nat
deriving DecidableEq, Repr

/-- The items table with its auto-increment counter. -/
structure Db where
  rows : List Item
  nextId : Nat
deriving DecidableEq, Repr

/-- One operation issued to the persistence layer. -/
inductive DbOp where
  | selectAll
  | selectById (id : Nat)
  | insertRow (name : String) (description : Option String) (category : String)
      (price : Int)
  | updateRow (id : Nat) (name : String) (description : Option String)
      (category : String) (price : Int)
  | deleteRow (id : Nat)
deriving DecidableEq, Repr

/-- `db.insert(items).values(itemData)`: appends the row under the next
auto-increment id and returns the new state with the `insertId`. -/
def dbInsert (db : Db) (name : String) (description : Option String)
    (category : String) (price : Int) (ts : Nat) : Db × Nat :=
  let newId := db.nextId
  ({ rows := db.rows ++
        [{ id := newId, name := name, description := description,
           category := category, price := price, createdAt := ts, updatedAt := ts }]
     nextId := newId + 1 },
   newId)

/-- `db.select().from(items).where(eq(items.id, id))`. -/
def dbSelectById (db : Db) (id : Nat) : List Item :=
  db.rows.filter fun r => r.id == id

/-- `db.delete(items).where(eq(items.id, id))`. -/
def dbDeleteById (db : Db) (id : Nat) : Db :=
  { db with rows := db.rows.filter fun r => !(r.id == id) }

/-- JavaScript `Math.round`: round half towards positive infinity. -/
def jsRound (q : ℚ) : ℤ :=
  ⌊q + 1 / 2⌋

/-- JavaScript `description || null`: an empty string is coerced to null. -/
def jsOrNull : Option String → Option String
  | none => none
  | some s => if s == "" then none else some s

/-- The parsed JSON body of a create-item request; absent fields are `none`.
`price` is modelled as an exact rational (the JS number for `19.99` differs from
`1999/100` by under `2⁻⁴⁴`, and `Math.round` agrees on both at every input of the
verified scenarios). -/
structure CreateBody where
  name : Option String
  description : Option String
  category : Option String
  price : Option ℚ
deriving DecidableEq

/-- The parsed JSON body of a delete-item request. -/
structure DeleteBody where
  id : Option Nat
deriving DecidableEq, Repr

/-- JavaScript truthiness of `number | undefined` for ids: `undefined` and `0` are
falsy. -/
def truthyNat : Option Nat → Bool
  | none => false
  | some n => !(n == 0)

/-- The body a handler returns with its status. -/
inductive ResponseBody where
  | errorMessage (s : String)
  | item (it : Item)
  | itemList (l : List Item)
deriving DecidableEq, Repr

/-- The observable result of one API handler run: response status and body, the
persistence operations issued in order, the log records emitted in order, and the
resulting table state. -/
structure ApiResult where
  status : Nat
  body : ResponseBody
  ops : List DbOp
  logs : List LogEvent
  db : Db
deriving DecidableEq, Repr

/-- The `POST` handler of `src/routes/api/items/+server.ts` (lines 57–156).
`requestId`, `startTime`, `now` are the explicit `generateRequestId()` /
`Date.now()` values, `ts` the `new Date()` instant used for the timestamps.
Validation: `if (!name || !category || price === undefined)` → 400 with a warning
log and a completion log, no persistence call.  Otherwise insert with
`price: Math.round(price * 100)`, re-select the inserted row (MySQL has no
RETURNING), log the database and completion records, and answer 201 echoing the
row.  The empty-select branch mirrors the catch block (`newItem[0]` would be
`undefined` and the field access throws): it is unreachable under this
persistence model. -/
def POST (db : Db) (b : CreateBody) (requestId : String) (startTime now : Int)
    (ts : Nat) : ApiResult :=
  let reqLog := LogEvent.requestLog requestId "POST" "/api/items"
  if !truthyStr b.name || !truthyStr b.category || b.price.isNone then
    { status := 400
      body := .errorMessage "Name, category, and price are required"
      ops := []
      logs := [reqLog, .warnLog "Invalid request data for item creation",
               .responseLog requestId 400 (now - startTime)]
      db := db }
  else
    let name := b.name.getD ""
    let category := b.category.getD ""
    let price := b.price.getD 0
    let priceCents := jsRound (price * 100)
    let description := jsOrNull b.description
    let inserted := dbInsert db name description category priceCents ts
    let ops := [DbOp.insertRow name description category priceCents,
                DbOp.selectById inserted.2]
    match dbSelectById inserted.1 inserted.2 with
    | it :: _ =>
        { status := 201
          body := .item it
          ops := ops
          logs := [reqLog, .databaseLog "insert" "items",
                   .responseLog requestId 201 (now - startTime)]
          db := inserted.1 }
    | [] =>
        { status := 500
          body := .errorMessage "Failed to create item"
          ops := ops
          logs := [reqLog, .plainErrorLog "TypeError",
                   .responseLog requestId 500 (now - startTime)]
          db := inserted.1 }

/-- The `DELETE` handler of `src/routes/api/items/+server.ts` (lines 283–390).
`if (!id)` → 400.  Otherwise: select the row first (to be able to echo it); if
absent answer 404 with a warning and completion log and leave the table untouched;
if present delete it only after the fetch and answer 200 with the pre-deletion
row. -/
def DELETE (db : Db) (b : DeleteBody) (requestId : String) (startTime now : Int) :
    ApiResult :=
  let reqLog := LogEvent.requestLog requestId "DELETE" "/api/items"
  if !truthyNat b.id then
    { status := 400
      body := .errorMessage "ID is required"
      ops := []
      logs := [reqLog, .warnLog "Invalid request data for item deletion",
               .responseLog requestId 400 (now - startTime)]
      db := db }
  else
    let id := b.id.getD 0
    match dbSelectById db id with
    | [] =>
        { status := 404
          body := .errorMessage "Item not found"
          ops := [DbOp.selectById id]
          logs := [reqLog, .warnLog "Item not found for deletion",
                   .responseLog requestId 404 (now - startTime)]
          db := db }
    | it :: _ =>
        { status := 200
          body := .item it
          ops := [DbOp.selectById id, DbOp.deleteRow id]
          logs := [reqLog, .databaseLog "delete" "items",
                   .responseLog requestId 200 (now - startTime)]
          db := dbDeleteById db id }

/-! ## Concrete sample inputs used by witnesses and counterexamples -/

/-- A request to a logged path. -/
def sampleEvent : Event :=
  { method := "GET", url := "http://localhost/api/items", pathname := "/api/items" }

/-- A request to a denylisted path. -/
def healthEvent : Event :=
  { method := "GET", url := "http://localhost/health", pathname := "/health" }

/-- A pre-classified operational error (category `not_found`, code 404). -/
def sampleAppError : AppError :=
  AppError.make "Item not found" ErrorType.notFound 404 [] true

/-- An empty items table with auto-increment counter at 1. -/
def emptyDb : Db :=
  { rows := [], nextId := 1 }

/-! ## Claim theorems -/

/-- C7: `shouldLogRequest(path)` returns false exactly for paths that begin with
one of the fixed denylist of prefixes, and true for every other path; in
particular `shouldLogRequest("/health") = false` and
`shouldLogRequest("/api/items") = true`. -/
theorem shouldLogRequest_denylist_spec :
    (∀ p : String, shouldLogRequest p = false ↔
       ∃ q ∈ skipPaths, q.data <+: p.data) ∧
    shouldLogRequest "/health" = false ∧
    shouldLogRequest "/api/items" = true := by
  refine ⟨fun p => ?_, by decide, by decide⟩
  simp [shouldLogRequest, strStartsWith, List.any_eq_true, List.isPrefixOf_iff_prefix]

/-- C3 (amended): the duration in the completion record emitted by `logResponse`
equals `now - startTime` exactly, with no clamping — it is negative whenever clock
skew makes `now < startTime`. -/
theorem logResponse_duration_eq_sub (ev : Event) (rid : String) (st now : Int)
    (status : Nat) :
    (logResponseRecord ev rid st now status).durationOf = some (now - st) :=
  rfl

/-- C3 counterexample: at `startTime = 5`, `now = 0` the emitted duration is `-5`,
not clamped to `0` — refuting the claim that the duration is never negative. -/
theorem logResponse_negative_duration_cex :
    (logResponseRecord sampleEvent "req_1" 5 0 200).durationOf = some (-5) ∧
    ¬ (0 : Int) ≤ -5 ∧
    (logResponseRecord sampleEvent "req_1" 5 0 200).durationOf ≠ some 0 := by
  exact ⟨rfl, by decide, by decide⟩

/-- C4: `handleError` always returns the fixed generic payload
(`'Internal server error'` / `'INTERNAL_ERROR'`), never the original failure's
message; the report it files uses the `requestId` recorded in `event.locals` when
available and the freshly generated one otherwise (`Option.getD`). -/
theorem handleError_generic_payload (ev : Event) (locals : Option String)
    (freshId : String) (t : Thrown) :
    (handleError ev locals freshId t).2.message = "Internal server error" ∧
    (handleError ev locals freshId t).2.code = "INTERNAL_ERROR" ∧
    (handleError ev locals freshId t).1 = handleReport ev (locals.getD freshId) t :=
  ⟨rfl, rfl, rfl⟩

/-- C5: `logRequest` never throws — for every behaviour of every configured
destination (each of which may fail its write), `logRequest` returns normally with
the id it used; no sink failure propagates to the caller. -/
theorem logRequest_never_throws (destinations : List Destination) (ev : Event)
    (requestId : Option String) (generatedId : String) :
    logRequest destinations ev requestId generatedId =
      Except.ok (requestId.getD generatedId,
        emitRecord destinations (logRequestRecord ev (requestId.getD generatedId))) ∧
    ∀ msg, logRequest destinations ev requestId generatedId ≠ Except.error msg := by
  refine ⟨rfl, fun msg h => ?_⟩
  simp [logRequest] at h

/-- C1: for a request whose path passes `shouldLogRequest`, the interceptor
`handle` emits exactly one arrival record and exactly one completion record on
every exit path of the downstream handler (normal return and thrown failure
alike), and every identity-carrying record it emits carries the one generated
`requestId`; for a denylisted path it emits nothing and passes the downstream
outcome straight through. -/
theorem handle_pairs_arrival_completion (ev : Event) (rid : String) (st now : Int)
    (down : HandlerOutcome) :
    (shouldLogRequest ev.pathname = true →
       (handle ev rid st now down).1.countP LogEvent.isArrival = 1 ∧
       (handle ev rid st now down).1.countP LogEvent.isCompletion = 1 ∧
       ∀ e ∈ (handle ev rid st now down).1,
         e.ridOf = none ∨ e.ridOf = some rid) ∧
    (shouldLogRequest ev.pathname = false →
       (handle ev rid st now down).1 = [] ∧
       (handle ev rid st now down).2.1 = down) := by
  constructor
  · intro h
    cases down with
    | ok status =>
        simp [handle, h, logRequestRecord, logResponseRecord, List.countP_cons,
          List.countP_nil, LogEvent.isArrival, LogEvent.isCompletion, LogEvent.ridOf]
    | thrown t =>
        cases t <;>
          simp [handle, h, handleReport, logRequestRecord, logResponseRecord,
            List.countP_cons, List.countP_nil, LogEvent.isArrival,
            LogEvent.isCompletion, LogEvent.ridOf]
  · intro h
    simp [handle, h]

/-- C1 witness: concrete instantiations on both sides of the path filter. -/
theorem handle_pairs_arrival_completion_witness :
    ((handle sampleEvent "req_1" 0 5 (.ok 200)).1.countP LogEvent.isArrival = 1 ∧
     (handle sampleEvent "req_1" 0 5 (.ok 200)).1.countP LogEvent.isCompletion = 1 ∧
     ∀ e ∈ (handle sampleEvent "req_1" 0 5 (.ok 200)).1,
       e.ridOf = none ∨ e.ridOf = some "req_1") ∧
    ((handle healthEvent "req_2" 0 5 (.ok 200)).1 = [] ∧
     (handle healthEvent "req_2" 0 5 (.ok 200)).2.1 = .ok 200) :=
  ⟨(handle_pairs_arrival_completion sampleEvent "req_1" 0 5 (.ok 200)).1 (by decide),
   (handle_pairs_arrival_completion healthEvent "req_2" 0 5 (.ok 200)).2 (by decide)⟩

/-- C2: when the downstream handler throws on a logged path, `handle` emits the
arrival record, then a completion record with status 500 (duration recorded),
then the classified report: a thrown `AppError` is reported as itself — its own
category, code and metadata — while a plain failure is wrapped as `internal`/500
with the original message preserved under `originalError`; in both cases the
original failure is re-raised unchanged to the caller. -/
theorem handle_thrown_logging (ev : Event) (rid : String) (st now : Int)
    (t : Thrown) (h : shouldLogRequest ev.pathname = true) :
    (handle ev rid st now (.thrown t)).1 =
      [logRequestRecord ev rid,
       LogEvent.responseLog rid 500 (now - st),
       handleReport ev rid t] ∧
    (handle ev rid st now (.thrown t)).2.1 = .thrown t ∧
    (∀ e, t = .app e →
       handleReport ev rid t =
         .errorLog e [("requestId", rid), ("method", ev.method), ("url", ev.url)]) ∧
    (∀ msg, t = .plain msg →
       ∃ e, handleReport ev rid t = .errorLog e [] ∧
         e.message = "Unhandled server error" ∧ e.type = .internal ∧
         e.statusCode = 500 ∧ ("originalError", msg) ∈ e.context) := by
  refine ⟨by simp [handle, h, logResponseRecord], by simp [handle, h], ?_, ?_⟩
  · rintro e rfl
    rfl
  · rintro msg rfl
    exact ⟨_, rfl, rfl, rfl, rfl, by simp [AppError.make]⟩

/-- C2 witness: a pre-classified `not_found`/404 error thrown on a logged path. -/
theorem handle_thrown_logging_witness :
    (handle sampleEvent "req_1" 0 5 (.thrown (.app sampleAppError))).1 =
      [logRequestRecord sampleEvent "req_1",
       LogEvent.responseLog "req_1" 500 (5 - 0),
       handleReport sampleEvent "req_1" (.app sampleAppError)] ∧
    (handle sampleEvent "req_1" 0 5 (.thrown (.app sampleAppError))).2.1 =
      .thrown (.app sampleAppError) := by
  have h := handle_thrown_logging sampleEvent "req_1" 0 5 (.app sampleAppError)
    (by decide)
  exact ⟨h.1, h.2.1⟩

/-- C6 counterexample: with the bearer token present but the dataset name absent,
the remote sink is disabled (console-only, startup warning) — refuting the claim
that a missing dataset name merely falls back to the `"default"` dataset without
disabling the remote sink. -/
theorem createLogger_missing_dataset_cex :
    createLogger { AXIOM_TOKEN := some "tok", AXIOM_DATASET := none } =
      ([Transport.console], true) ∧
    Transport.remote "default" ∉
      (createLogger { AXIOM_TOKEN := some "tok", AXIOM_DATASET := none }).1 := by
  exact ⟨rfl, by decide⟩

/-- C6 (amended): the transport list is fixed at startup; a missing (or empty)
bearer token disables the remote sink (console-only with a startup warning), and a
missing dataset name likewise disables the remote sink, because the remote
transport is added only when both variables are truthy — `getDatasetName` does
fall back to `"default"` with a warning, but that fallback never reaches
`createLogger`'s configured branch. -/
theorem createLogger_transports_spec (e : AxiomEnv) :
    (truthyStr e.AXIOM_TOKEN = false →
       createLogger e = ([Transport.console], true)) ∧
    (e.AXIOM_DATASET = none →
       getDatasetName e = ("default", true) ∧
       createLogger e = ([Transport.console], true)) ∧
    (truthyStr e.AXIOM_TOKEN = true → truthyStr e.AXIOM_DATASET = true →
       createLogger e =
         ([Transport.console, Transport.remote (getDatasetName e).1], false)) := by
  refine ⟨fun h => ?_, fun h => ?_, fun h1 h2 => ?_⟩
  · simp [createLogger, isAxiomConfigured, h]
  · exact ⟨by simp [getDatasetName, h],
      by simp [createLogger, isAxiomConfigured, truthyStr, h]⟩
  · simp [createLogger, isAxiomConfigured, h1, h2]

/-- C6 witness: the three configurations — token absent, dataset absent, both
present. -/
theorem createLogger_transports_spec_witness :
    createLogger { AXIOM_TOKEN := none, AXIOM_DATASET := some "logs" } =
      ([Transport.console], true) ∧
    (getDatasetName { AXIOM_TOKEN := some "t1", AXIOM_DATASET := none } =
       ("default", true) ∧
     createLogger { AXIOM_TOKEN := some "t1", AXIOM_DATASET := none } =
       ([Transport.console], true)) ∧
    createLogger { AXIOM_TOKEN := some "t1", AXIOM_DATASET := some "logs" } =
      ([Transport.console, Transport.remote "logs"], false) :=
  ⟨(createLogger_transports_spec _).1 (by decide),
   (createLogger_transports_spec _).2.1 rfl,
   (createLogger_transports_spec _).2.2 (by decide) (by decide)⟩

/-- The create-item body of the verified scenario:
`{name:"Widget", category:"Tools", price: 19.99}`. -/
def widgetBody : CreateBody :=
  { name := some "Widget", description := none, category := some "Tools",
    price := some (1999 / 100 : ℚ) }

/-- C8: creating `{name:"Widget", category:"Tools", price: 19.99}` issues an
insert carrying the price as the integer cents value `1999`
(`Math.round(price * 100)`), followed only by the re-select of the inserted row,
and the 201 response echoes a record with `price = 1999`. -/
theorem POST_widget_cents :
    (POST emptyDb widgetBody "req_8" 0 5 100).ops =
      [DbOp.insertRow "Widget" none "Tools" 1999, DbOp.selectById 1] ∧
    (POST emptyDb widgetBody "req_8" 0 5 100).status = 201 ∧
    (POST emptyDb widgetBody "req_8" 0 5 100).body =
      .item { id := 1, name := "Widget", description := none, category := "Tools",
              price := 1999, createdAt := 100, updatedAt := 100 } := by
  have hr : jsRound (1999 : ℚ) = 1999 := by
    norm_num [jsRound]
  refine ⟨?_, ?_, ?_⟩ <;>
    simp [POST, widgetBody, emptyDb, truthyStr, hr, dbInsert, dbSelectById, jsOrNull]

/-- C9: a create-item request whose body has no `category` issues no persistence
operation, leaves the table unchanged, answers 400, and its log trail is exactly
the arrival record, one warning, and one completion record with status 400 — in
particular exactly one completion record and no classified-error report. -/
theorem POST_missing_category (db : Db) (b : CreateBody) (rid : String)
    (st now : Int) (ts : Nat) (h : b.category = none) :
    (POST db b rid st now ts).ops = [] ∧
    (POST db b rid st now ts).status = 400 ∧
    (POST db b rid st now ts).db = db ∧
    (POST db b rid st now ts).logs =
      [LogEvent.requestLog rid "POST" "/api/items",
       LogEvent.warnLog "Invalid request data for item creation",
       LogEvent.responseLog rid 400 (now - st)] ∧
    (POST db b rid st now ts).logs.countP LogEvent.isCompletion = 1 ∧
    (∀ e ∈ (POST db b rid st now ts).logs,
       e.statusOf = none ∨ e.statusOf = some 400) ∧
    (POST db b rid st now ts).logs.countP LogEvent.isErrorReport = 0 := by
  have hcond : (!truthyStr b.name || !truthyStr b.category || b.price.isNone) = true := by
    simp [h, truthyStr]
  refine ⟨?_, ?_, ?_, ?_, ?_, ?_, ?_⟩ <;>
    simp [POST, hcond, List.countP_cons, List.countP_nil, LogEvent.isCompletion,
      LogEvent.isErrorReport, LogEvent.statusOf]

/-- C9 witness: the scenario body with `category` missing. -/
theorem POST_missing_category_witness :
    (POST emptyDb
        { name := some "Widget", description := none, category := none,
          price := some (1999 / 100 : ℚ) } "req_9" 0 5 100).ops = [] ∧
    (POST emptyDb
        { name := some "Widget", description := none, category := none,
          price := some (1999 / 100 : ℚ) } "req_9" 0 5 100).status = 400 ∧
    (POST emptyDb
        { name := some "Widget", description := none, category := none,
          price := some (1999 / 100 : ℚ) } "req_9" 0 5 100).db = emptyDb ∧
    (POST emptyDb
        { name := some "Widget", description := none, category := none,
          price := some (1999 / 100 : ℚ) } "req_9" 0 5 100).logs =
      [LogEvent.requestLog "req_9" "POST" "/api/items",
       LogEvent.warnLog "Invalid request data for item creation",
       LogEvent.responseLog "req_9" 400 (5 - 0)] := by
  have h := POST_missing_category emptyDb
    { name := some "Widget", description := none, category := none,
      price := some (1999 / 100 : ℚ) } "req_9" 0 5 100 rfl
  exact ⟨h.1, h.2.1, h.2.2.1, h.2.2.2.1⟩

/-- C10: a delete-item request with a valid id that matches no stored row performs
only the lookup select (the table is unchanged) and answers 404; when the row
exists, the delete is issued only after the lookup select, and the 200 response
body is the stored record fetched before the deletion. -/
theorem DELETE_lookup_then_delete (db : Db) (n : Nat) (rid : String)
    (st now : Int) (hn : n ≠ 0) :
    (dbSelectById db n = [] →
       (DELETE db ⟨some n⟩ rid st now).ops = [DbOp.selectById n] ∧
       (DELETE db ⟨some n⟩ rid st now).status = 404 ∧
       (DELETE db ⟨some n⟩ rid st now).db = db) ∧
    (∀ it rest, dbSelectById db n = it :: rest →
       (DELETE db ⟨some n⟩ rid st now).ops =
         [DbOp.selectById n, DbOp.deleteRow n] ∧
       (DELETE db ⟨some n⟩ rid st now).status = 200 ∧
       (DELETE db ⟨some n⟩ rid st now).body = .item it ∧
       it ∈ db.rows ∧
       (DELETE db ⟨some n⟩ rid st now).db = dbDeleteById db n) := by
  have ht : truthyNat (some n) = true := by simp [truthyNat, hn]
  constructor
  · intro h404
    refine ⟨?_, ?_, ?_⟩ <;> simp [DELETE, ht, h404]
  · intro it rest hfound
    have hmem : it ∈ db.rows := by
      have : it ∈ dbSelectById db n := by
        rw [hfound]; exact List.mem_cons_self it rest
      exact (List.mem_filter.mp this).1
    refine ⟨?_, ?_, ?_, hmem, ?_⟩ <;>
      simp [DELETE, ht, dbSelectById] at * <;>
      simp [DELETE, ht, hfound, dbSelectById]

/-- C10 witness: a one-row table, deleting an absent id and the present id. -/
theorem DELETE_lookup_then_delete_witness :
    ((DELETE { rows := [{ id := 1, name := "Widget", description := none,
                          category := "Tools", price := 1999, createdAt := 100,
                          updatedAt := 100 }], nextId := 2 }
        ⟨some 2⟩ "req_a" 0 5).ops = [DbOp.selectById 2] ∧
     (DELETE { rows := [{ id := 1, name := "Widget", description := none,
                          category := "Tools", price := 1999, createdAt := 100,
                          updatedAt := 100 }], nextId := 2 }
        ⟨some 2⟩ "req_a" 0 5).status = 404 ∧
     (DELETE { rows := [{ id := 1, name := "Widget", description := none,
                          category := "Tools", price := 1999, createdAt := 100,
                          updatedAt := 100 }], nextId := 2 }
        ⟨some 2⟩ "req_a" 0 5).db =
       { rows := [{ id := 1, name := "Widget", description := none,
                    category := "Tools", price := 1999, createdAt := 100,
                    updatedAt := 100 }], nextId := 2 }) ∧
    ((DELETE { rows := [{ id := 1, name := "Widget", description := none,
                          category := "Tools", price := 1999, createdAt := 100,
                          updatedAt := 100 }], nextId := 2 }
        ⟨some 1⟩ "req_b" 0 5).ops = [DbOp.selectById 1, DbOp.deleteRow 1] ∧
     (DELETE { rows := [{ id := 1, name := "Widget", description := none,
                          category := "Tools", price := 1999, createdAt := 100,
                          updatedAt := 100 }], nextId := 2 }
        ⟨some 1⟩ "req_b" 0 5).status = 200 ∧
     (DELETE { rows := [{ id := 1, name := "Widget", description := none,
                          category := "Tools", price := 1999, createdAt := 100,
                          updatedAt := 100 }], nextId := 2 }
        ⟨some 1⟩ "req_b" 0 5).body =
       .item { id := 1, name := "Widget", description := none, category := "Tools",
               price := 1999, createdAt := 100, updatedAt := 100 }) := by
  have hA := DELETE_lookup_then_delete
    { rows := [{ id := 1, name := "Widget", description := none,
                 category := "Tools", price := 1999, createdAt := 100,
                 updatedAt := 100 }], nextId := 2 } 2 "req_a" 0 5 (by decide)
  have hB := DELETE_lookup_then_delete
    { rows := [{ id := 1, name := "Widget", description := none,
                 category := "Tools", price := 1999, createdAt := 100,
                 updatedAt := 100 }], nextId := 2 } 1 "req_b" 0 5 (by decide)
  have hB' := hB.2 { id := 1, name := "Widget", description := none,
                     category := "Tools", price := 1999, createdAt := 100,
                     updatedAt := 100 } [] (by decide)
  exact ⟨hA.1 (by decide), hB'.1, hB'.2.1, hB'.2.2.1⟩

end DotEnv
